import Mathlib

/-!
# Verification of the `limacharlie` USP validation CLI

This file gives a shallow embedding of `limacharlie/USP.py`: the helper
functions `printData`/`reportError`/`_load_file_content`/`_load_mapping`,
the `do_validate` command (pre-flight argument resolution, the single
remote validation call, and the response renderer), and the argparse
surface declared in `main`.

Python library calls that are external to the repository (the file
system, `json.loads`, `yaml.safe_load`, `json.dumps`, `yaml.safe_dump`,
and the remote `Manager.validateUSP` procedure) are modelled as oracle
fields of an `Env` structure, so theorems universally quantify over
their behaviour.  Values flowing through the program are modelled by a
`Json` inductive; Python `None` is `Json.null`.  `sys.exit(n)` is
modelled by an explicit exit field of the `Output` structure; an
uncaught Python exception (e.g. calling `.items()` on a non-dict) is
modelled by `Option`-valued renderers returning `none`.
-/

/-- JSON-like Python values as manipulated by the CLI.  `null` doubles as
Python `None`. -/
inductive Json where
  | null : Json
  | bool : Bool → Json
  | num : Int → Json
  | str : String → Json
  | arr : List Json → Json
  | obj : List (String × Json) → Json

/-- Key lookup in a Python dict, modelled as first match in an
association list (`dict.get(k)` / `k in dict`). -/
def objGet (kvs : List (String × Json)) (k : String) : Option Json :=
  match kvs with
  | [] => none
  | (k', v) :: rest => if k' = k then some v else objGet rest k

/-- Python truthiness (`if x:`) of a JSON-like value. -/
def Json.truthy : Json → Bool
  | .null => false
  | .bool b => b
  | .num n => n != 0
  | .str s => s != ""
  | .arr xs => !xs.isEmpty
  | .obj kvs => !kvs.isEmpty

/-- `x is None` in Python. -/
def Json.isNull : Json → Bool
  | .null => true
  | _ => false

/-- `isinstance(x, list)` in Python. -/
def Json.isArr : Json → Bool
  | .arr _ => true
  | _ => false

mutual
/-- Python `repr` of a JSON-like value (escaping inside string reprs is
not modelled; no claim depends on it). -/
def pyRepr : Json → String
  | .null => "None"
  | .bool true => "True"
  | .bool false => "False"
  | .num n => toString n
  | .str s => "'" ++ s ++ "'"
  | .arr xs => "[" ++ pyReprList xs ++ "]"
  | .obj kvs => "\x7b" ++ pyReprObj kvs ++ "\x7d"

/-- Comma-joined reprs of the elements of a Python list. -/
def pyReprList : List Json → String
  | [] => ""
  | [x] => pyRepr x
  | x :: y :: rest => pyRepr x ++ ", " ++ pyReprList (y :: rest)

/-- Comma-joined `'key': repr(value)` entries of a Python dict. -/
def pyReprObj : List (String × Json) → String
  | [] => ""
  | [(k, v)] => "'" ++ k ++ "': " ++ pyRepr v
  | (k, v) :: p :: rest => "'" ++ k ++ "': " ++ pyRepr v ++ ", " ++ pyReprObj (p :: rest)
end

/-- Python `str` of a JSON-like value, as used by f-string interpolation. -/
def pyStr : Json → String
  | .str s => s
  | j => pyRepr j

/-- Truthiness of an optional-string argparse value (`if args.x:` where
`x` defaults to `None`): `None` and `''` are falsy. -/
def optTruthy : Option String → Bool
  | none => false
  | some s => s != ""

/-- The parsed argparse namespace produced by `main` (one field per
`add_argument` call, plus the positional `action`). -/
structure Args where
  action : String
  platform : String
  mapping : Option String
  mapping_file : Option String
  mappings_file : Option String
  input : Option String
  input_file : Option String
  json_input : Bool
  hostname : Option String
  indexing_file : Option String
  output_format : String

/-- Outcome of `open(path, 'rb')` + `.read().decode('utf-8')`: success,
`FileNotFoundError` (with the exception's message), or any other read
error (with the exception's message). -/
inductive ReadResult where
  | ok : String → ReadResult
  | notFound : String → ReadResult
  | err : String → ReadResult

/-- The request handed to `Manager.validateUSP`. -/
structure ValidationRequest where
  platform : String
  hostname : Option String
  mapping : Json
  mappings : Json
  indexing : Json
  text_input : Option String
  json_input : Option Json

/-- The response shape of the remote validation procedure:
`{errors: [string], results: [object]}`. -/
structure ValidationResponse where
  errors : List String
  results : List Json

/-- Oracles for everything outside this repository: the file system,
the JSON/YAML (de)serializers, and the remote validation API.
`parseJson`/`parseYaml` return `Except` with the exception's string;
`dumpJson`/`dumpYaml` give the printed lines of `json.dumps(…, indent=2)`
and `yaml.safe_dump(…)`. -/
structure Env where
  readFile : String → ReadResult
  parseJson : String → Except String Json
  parseYaml : String → Except String Json
  api : ValidationRequest → Except String ValidationResponse
  dumpJson : List Json → List String
  dumpYaml : List Json → List String

/-- Observable behaviour of one invocation: stdout lines, stderr
messages (one entry per `sys.stderr.write` in `reportError`), and the
exit status (`some n` for `sys.exit(n)`, `none` for a normal return,
which makes the process exit 0). -/
structure Output where
  stdout : List String
  stderr : List String
  exit : Option Nat

/-- The process exit code resulting from an `Output`. -/
def Output.exitCode (o : Output) : Nat := o.exit.getD 0

/-- `_load_file_content(path, as_json=True)` (`USP.py` lines 46-68):
read, decode, `json.loads`; each failure goes to `reportError`. -/
def loadFileContentJson (env : Env) (path : String) : Except String Json :=
  match env.readFile path with
  | .ok content =>
    match env.parseJson content with
    | .ok j => .ok j
    | .error e => .error ("Invalid JSON in file " ++ path ++ ": " ++ e)
  | .notFound _ => .error ("File not found: " ++ path)
  | .err e => .error ("Error reading file " ++ path ++ ": " ++ e)

/-- `_load_file_content(path, as_json=False)`: read and decode only. -/
def loadFileContentText (env : Env) (path : String) : Except String String :=
  match env.readFile path with
  | .ok content => .ok content
  | .notFound _ => .error ("File not found: " ++ path)
  | .err e => .error ("Error reading file " ++ path ++ ": " ++ e)

/-- `_load_mapping(args)` (`USP.py` lines 71-94): mapping file first
(YAML-tolerant parse, any failure reported generically), else inline
JSON, else Python `None`. -/
def loadMapping (env : Env) (args : Args) : Except String Json :=
  if optTruthy args.mapping_file then
    match env.readFile (args.mapping_file.getD "") with
    | .ok content =>
      match env.parseYaml content with
      | .ok j => .ok j
      | .error e => .error ("Error loading mapping file: " ++ e)
    | .notFound e => .error ("Error loading mapping file: " ++ e)
    | .err e => .error ("Error loading mapping file: " ++ e)
  else if optTruthy args.mapping then
    match env.parseJson (args.mapping.getD "") with
    | .ok j => .ok j
    | .error e => .error ("Invalid JSON in mapping argument: " ++ e)
  else .ok .null

/-- The `builtin_parser_platforms` list of `do_validate`. -/
def builtin_parser_platforms : List String :=
  ["cef", "wel", "gcp", "aws", "1password", "duo", "slack"]

/-- The (three-line) message reported when a platform without a built-in
parser is used with no mapping source (`USP.py` lines 119-121). -/
def mappingRequiredMsg (platform : String) : String :=
  "Platform \"" ++ platform ++ "\" requires a mapping configuration.\n" ++
  "Use --mapping, --mapping-file, or --mappings-file to provide one.\n" ++
  "Platforms with built-in parsers (no mapping required): " ++
  String.intercalate ", " builtin_parser_platforms

/-- `do_validate` lines 124-128: load the `--mappings-file` array if
provided (`None` i.e. `Json.null` otherwise), insisting it is a list. -/
def resolveMappings (env : Env) (args : Args) : Except String Json :=
  if optTruthy args.mappings_file then
    match loadFileContentJson env (args.mappings_file.getD "") with
    | .error e => .error e
    | .ok m =>
      if m.isArr then .ok m
      else .error "--mappings-file must contain a JSON array of mapping descriptors"
  else .ok .null

/-- `do_validate` lines 130-150: resolve `(text_input, json_input)` from
`--input-file` / `--input` / `--json-input`. -/
def resolveInput (env : Env) (args : Args) : Except String (Option String × Option Json) :=
  if optTruthy args.input_file then
    if args.json_input then
      match loadFileContentJson env (args.input_file.getD "") with
      | .error e => .error e
      | .ok j =>
        if j.isArr then .ok (none, some j)
        else .error "JSON input must be an array of objects"
    else
      match loadFileContentText env (args.input_file.getD "") with
      | .error e => .error e
      | .ok t => .ok (some t, none)
  else if optTruthy args.input then
    if args.json_input then
      match env.parseJson (args.input.getD "") with
      | .ok j =>
        if j.isArr then .ok (none, some j)
        else .error "JSON input must be an array of objects"
      | .error e => .error ("Invalid JSON in input argument: " ++ e)
    else .ok (some (args.input.getD ""), none)
  else .ok (none, none)

/-- `do_validate` lines 155-160: load the `--indexing-file` array if
provided, insisting it is a list. -/
def resolveIndexing (env : Env) (args : Args) : Except String Json :=
  if optTruthy args.indexing_file then
    match loadFileContentJson env (args.indexing_file.getD "") with
    | .error e => .error e
    | .ok j =>
      if j.isArr then .ok j
      else .error "--indexing-file must contain a JSON array of indexing rules"
  else .ok .null

/-- The pre-flight phase of `do_validate` (lines 111-160): everything
before the remote call, producing either a `reportError` message or the
assembled request. -/
def doValidatePre (env : Env) (args : Args) : Except String ValidationRequest :=
  match loadMapping env args with
  | .error e => .error e
  | .ok mapping =>
    if mapping.isNull && args.mappings_file.isNone
        && !(builtin_parser_platforms.contains args.platform) then
      .error (mappingRequiredMsg args.platform)
    else
      match resolveMappings env args with
      | .error e => .error e
      | .ok mappings =>
        match resolveInput env args with
        | .error e => .error e
        | .ok (text_input, json_input) =>
          if text_input.isNone && json_input.isNone then
            .error "Either --input or --input-file is required"
          else
            match resolveIndexing env args with
            | .error e => .error e
            | .ok indexing =>
              .ok { platform := args.platform, hostname := args.hostname,
                    mapping := mapping, mappings := mappings, indexing := indexing,
                    text_input := text_input, json_input := json_input }

/-- The `hostname` extraction of the summary renderer (lines 217-221):
`routing.get('hostname', routing.get('this', {}).get('hostname', ''))`,
printed only when truthy.  Returns `none` where Python would raise
(`.get` on a truthy non-dict `routing`, or on a non-dict `this`). -/
def hostnameLines (routing : Json) : Option (List String) :=
  if routing.truthy then
    match routing with
    | .obj rkvs =>
      match (objGet rkvs "this").getD (.obj []) with
      | .obj tkvs =>
        let hostname := (objGet rkvs "hostname").getD
          ((objGet tkvs "hostname").getD (.str ""))
        some (if hostname.truthy then ["  hostname: " ++ pyStr hostname] else [])
      | _ => none
    | _ => none
  else some []

/-- One iteration of the summary loop (lines 214-227): the `Event i:`
header, the optional hostname line, one `key: value` line per non-
`routing` key of `event.get('event', event)`, and the blank line from
`print('')`.  `none` models an uncaught Python exception. -/
def renderSummaryEvent (i : Nat) (event : Json) : Option (List String) :=
  match event with
  | .obj ekvs =>
    match hostnameLines ((objGet ekvs "routing").getD (.obj [])) with
    | none => none
    | some hostLines =>
      match (objGet ekvs "event").getD event with
      | .obj evtKvs =>
        some (("Event " ++ toString i ++ ":") :: hostLines
          ++ (evtKvs.filter (fun kv => kv.1 != "routing")).map
              (fun kv => "  " ++ kv.1 ++ ": " ++ pyStr kv.2)
          ++ [""])
      | _ => none
  | _ => none

/-- The summary loop `for i, event in enumerate(results, 1)`, starting
at index `i`. -/
def renderSummaryBlocks (i : Nat) : List Json → Option (List String)
  | [] => some []
  | e :: rest =>
    match renderSummaryEvent i e with
    | none => none
    | some b =>
      match renderSummaryBlocks (i + 1) rest with
      | none => none
      | some bs => some (b ++ bs)

/-- Stdout lines of the hard-failure branch (lines 181-189). -/
def hardFailureLines (errors : List String) (results : List Json) : List String :=
  ["VALIDATION FAILED", "", "Errors:"]
    ++ errors.map (fun e => "  - " ++ e) ++ [""]
    ++ (if results.isEmpty then []
        else ["Partially parsed " ++ toString results.length ++ " event(s) before failure."])

/-- Stdout lines of the zero-events branch (lines 190-203). -/
def emptyResultLines : List String :=
  ["VALIDATION FAILED", "",
   "WARNING: No events were parsed from the sample data.", "",
   "This usually indicates one of the following issues:",
   "  - The parsing_re regex does not match the input format",
   "  - The platform type does not match the data format",
   "  - The sample data is empty or contains only whitespace",
   "",
   "Suggestions:",
   "  - Verify your parsing_re regex matches the sample data",
   "  - Check that the platform matches your data format (text, json, cef, etc.)",
   "  - Ensure the sample file contains valid log data"]

/-- Stdout header of the success branch (lines 205-206). -/
def successHeader (n : Nat) : List String :=
  ["VALIDATION SUCCESSFUL", "", "Parsed " ++ toString n ++ " event(s):", ""]

/-- The response classification and rendering of `do_validate`
(lines 177-227). -/
def renderResponse (env : Env) (output_format : String) (resp : ValidationResponse) :
    Option Output :=
  if resp.errors ≠ [] then
    some { stdout := hardFailureLines resp.errors resp.results, stderr := [], exit := some 1 }
  else if resp.results.length = 0 then
    some { stdout := emptyResultLines, stderr := [], exit := some 1 }
  else if output_format = "json" then
    some { stdout := successHeader resp.results.length ++ env.dumpJson resp.results,
           stderr := [], exit := none }
  else if output_format = "yaml" then
    some { stdout := successHeader resp.results.length ++ env.dumpYaml resp.results,
           stderr := [], exit := none }
  else
    match renderSummaryBlocks 1 resp.results with
    | none => none
    | some blocks =>
      some { stdout := successHeader resp.results.length ++ blocks,
             stderr := [], exit := none }

/-- `do_validate(args)` (`USP.py` lines 97-227) end to end: pre-flight
resolution, the remote call, and rendering.  Every `reportError` path
yields one stderr message and `sys.exit(1)`. -/
def do_validate (env : Env) (args : Args) : Option Output :=
  match doValidatePre env args with
  | .error msg => some { stdout := [], stderr := [msg], exit := some 1 }
  | .ok req =>
    match env.api req with
    | .error e => some { stdout := [], stderr := ["API error: " ++ e], exit := some 1 }
    | .ok resp => renderResponse env args.output_format resp

/-- The `choices` of the `--platform` (`-p`) flag in `main` (`USP.py` line 263). -/
def platform_choices : List String := ["text", "json", "cef", "gcp", "aws"]

/-- The `choices` of the `--output-format` (`-o`) flag in `main` (line 343). -/
def output_format_choices : List String := ["summary", "json", "yaml"]

/-- The argparse namespace before any token is consumed: one field per
`add_argument` default (`platform='text'`, `json_input=False`,
`output_format='summary'`, everything else `None`). -/
def defaultArgs : Args :=
  { action := "", platform := "text", mapping := none, mapping_file := none,
    mappings_file := none, input := none, input_file := none, json_input := false,
    hostname := none, indexing_file := none, output_format := "summary" }

/-- The argparse surface declared in `main` (`USP.py` lines 246-347),
on canonical space-separated tokens: each declared flag consumes its
value (checking `choices` where declared), `--json-input` stores true,
the single positional fills `action`, anything else is an argparse
error (exit code 2).  Note `main` declares no mutually-exclusive
groups, so any combination of flags is accepted. -/
def parseTokens : List String → Args → Bool → Except Nat Args
  | [], a, seenAction => if seenAction then .ok a else .error 2
  | t :: rest, a, seenAction =>
    if t = "-p" ∨ t = "--platform" then
      match rest with
      | v :: rest' =>
        if platform_choices.contains v then
          parseTokens rest' { a with platform := v } seenAction
        else .error 2
      | [] => .error 2
    else if t = "-m" ∨ t = "--mapping" then
      match rest with
      | v :: rest' => parseTokens rest' { a with mapping := some v } seenAction
      | [] => .error 2
    else if t = "-f" ∨ t = "--mapping-file" then
      match rest with
      | v :: rest' => parseTokens rest' { a with mapping_file := some v } seenAction
      | [] => .error 2
    else if t = "--mappings-file" then
      match rest with
      | v :: rest' => parseTokens rest' { a with mappings_file := some v } seenAction
      | [] => .error 2
    else if t = "-i" ∨ t = "--input" then
      match rest with
      | v :: rest' => parseTokens rest' { a with input := some v } seenAction
      | [] => .error 2
    else if t = "--input-file" then
      match rest with
      | v :: rest' => parseTokens rest' { a with input_file := some v } seenAction
      | [] => .error 2
    else if t = "--json-input" then
      parseTokens rest { a with json_input := true } seenAction
    else if t = "--hostname" then
      match rest with
      | v :: rest' => parseTokens rest' { a with hostname := some v } seenAction
      | [] => .error 2
    else if t = "--indexing-file" then
      match rest with
      | v :: rest' => parseTokens rest' { a with indexing_file := some v } seenAction
      | [] => .error 2
    else if t = "-o" ∨ t = "--output-format" then
      match rest with
      | v :: rest' =>
        if output_format_choices.contains v then
          parseTokens rest' { a with output_format := v } seenAction
        else .error 2
      | [] => .error 2
    else if t.data.head? = some '-' then .error 2
    else if seenAction then .error 2
    else parseTokens rest { a with action := t } true

/-- Python `str.lower()` (ASCII case folding suffices here). -/
def strLower (s : String) : String := ⟨s.data.map Char.toLower⟩

/-- `main(sourceArgs)` (`USP.py` lines 230-348): parse the CLI tokens
(argparse errors exit with code 2; its usage text is elided), then
dispatch `actions[args.action.lower()]`.  An action other than
`validate` raises `KeyError` (modelled as `none`). -/
def usp_main (env : Env) (argv : List String) : Option Output :=
  match parseTokens argv defaultArgs false with
  | .error code => some { stdout := [], stderr := [], exit := some code }
  | .ok args =>
    if strLower args.action = "validate" then do_validate env args
    else none

/-- An environment whose remote API always answers `resp`, with an
empty file system, failing parsers and empty serializer output; used to
instantiate universally quantified theorems at concrete inputs. -/
def envOf (resp : ValidationResponse) : Env :=
  { readFile := fun _ => .notFound "no such file",
    parseJson := fun _ => .error "parse error",
    parseYaml := fun _ => .error "parse error",
    api := fun _ => .ok resp,
    dumpJson := fun _ => [],
    dumpYaml := fun _ => [] }

/-- Events on which the summary renderer cannot raise: dicts whose
`event` value (when present) is a dict and whose `routing` value does
not make the hostname extraction raise.  This is the event shape of the
spec's data model (`routing` / `this` / `event` sub-objects). -/
def wellFormedEvent (e : Json) : Bool :=
  match e with
  | .obj ekvs =>
    (hostnameLines ((objGet ekvs "routing").getD (.obj []))).isSome
      && (match (objGet ekvs "event").getD e with
          | .obj _ => true
          | _ => false)
  | _ => false

theorem renderSummaryEvent_isSome (i : Nat) (e : Json) (h : wellFormedEvent e = true) :
    ∃ ls, renderSummaryEvent i e = some ls := by
  unfold wellFormedEvent at h
  unfold renderSummaryEvent
  split at h
  next ekvs =>
    rw [Bool.and_eq_true] at h
    obtain ⟨h1, h2⟩ := h
    obtain ⟨hl, hhl⟩ := Option.isSome_iff_exists.mp h1
    rw [hhl]
    split at h2
    next heq => exact ⟨_, rfl⟩
    next heq => exact absurd h2 (by simp)
  next => exact absurd h (by simp)

theorem renderSummaryBlocks_isSome (l : List Json)
    (h : ∀ e ∈ l, wellFormedEvent e = true) :
    ∀ i, ∃ bs, renderSummaryBlocks i l = some bs := by
  induction l with
  | nil => intro i; exact ⟨[], rfl⟩
  | cons e rest ih =>
    intro i
    obtain ⟨b, hb⟩ := renderSummaryEvent_isSome i e (h e (List.mem_cons_self _ _))
    obtain ⟨bs, hbs⟩ := ih (fun x hx => h x (List.mem_cons_of_mem _ hx)) (i + 1)
    exact ⟨b ++ bs, by unfold renderSummaryBlocks; rw [hb, hbs]⟩

/-- **C2**: a response with empty `errors` and empty `results` makes
`do_validate` print "VALIDATION FAILED", the fixed diagnostic checklist
("No events were parsed", regex mismatch, platform mismatch, empty
sample) and the fixed suggestions list, and exit with code 1. -/
theorem usp_C2 (env : Env) (args : Args) (req : ValidationRequest) (resp : ValidationResponse)
    (hpre : doValidatePre env args = .ok req)
    (hapi : env.api req = .ok resp)
    (herr : resp.errors = [])
    (hres : resp.results = []) :
    do_validate env args
        = some { stdout := emptyResultLines, stderr := [], exit := some 1 }
      ∧ "VALIDATION FAILED" ∈ emptyResultLines
      ∧ (∃ l ∈ emptyResultLines, ∃ a b, l = a ++ "No events were parsed" ++ b)
      ∧ "  - The parsing_re regex does not match the input format" ∈ emptyResultLines
      ∧ "  - The platform type does not match the data format" ∈ emptyResultLines
      ∧ "  - The sample data is empty or contains only whitespace" ∈ emptyResultLines
      ∧ "Suggestions:" ∈ emptyResultLines := by
  refine ⟨?_, by decide,
    ⟨"WARNING: No events were parsed from the sample data.", by decide,
      "WARNING: ", " from the sample data.", rfl⟩,
    by decide, by decide, by decide, by decide⟩
  simp [do_validate, hpre, hapi, renderResponse, herr, hres]

/-- Witness for C2 at the spec's scenario `{errors: [], results: []}`. -/
theorem usp_C2_witness :
    do_validate (envOf ⟨[], []⟩)
        { defaultArgs with action := "validate", platform := "cef", input := some "test data" }
      = some { stdout := emptyResultLines, stderr := [], exit := some 1 } :=
  (usp_C2 (envOf ⟨[], []⟩)
    { defaultArgs with action := "validate", platform := "cef", input := some "test data" }
    { platform := "cef", hostname := none, mapping := .null, mappings := .null,
      indexing := .null, text_input := some "test data", json_input := none }
    ⟨[], []⟩ rfl rfl rfl rfl).1

/-- **C3**: a response with non-empty `errors` makes `do_validate`
print "VALIDATION FAILED", one `  - err` line per error in order, the
partial-results count exactly when `results` is non-empty, and exit
with code 1, whether or not `results` is empty. -/
theorem usp_C3 (env : Env) (args : Args) (req : ValidationRequest) (resp : ValidationResponse)
    (hpre : doValidatePre env args = .ok req)
    (hapi : env.api req = .ok resp)
    (herr : resp.errors ≠ []) :
    do_validate env args
      = some { stdout := ["VALIDATION FAILED", "", "Errors:"]
                 ++ resp.errors.map (fun e => "  - " ++ e) ++ [""]
                 ++ (if resp.results.isEmpty then []
                     else ["Partially parsed " ++ toString resp.results.length
                             ++ " event(s) before failure."]),
               stderr := [], exit := some 1 } := by
  simp [do_validate, hpre, hapi, renderResponse, hardFailureLines, herr]

/-- Witness for C3 at the spec's scenario
`{errors: ["bad regex"], results: []}`. -/
theorem usp_C3_witness :
    do_validate (envOf ⟨["bad regex"], []⟩)
        { defaultArgs with action := "validate", platform := "cef", input := some "test data" }
      = some { stdout := ["VALIDATION FAILED", "", "Errors:", "  - bad regex", ""],
               stderr := [], exit := some 1 } := by
  have h := usp_C3 (envOf ⟨["bad regex"], []⟩)
    { defaultArgs with action := "validate", platform := "cef", input := some "test data" }
    { platform := "cef", hostname := none, mapping := .null, mappings := .null,
      indexing := .null, text_input := some "test data", json_input := none }
    ⟨["bad regex"], []⟩ rfl rfl (by decide)
  simpa using h

/-- The success-branch count line equals the third header line. -/
theorem countLine_mem_successHeader (n : Nat) (body : List String) :
    ("Parsed " ++ toString n ++ " event(s)" ++ ":") ∈ successHeader n ++ body := by
  have h : ("Parsed " ++ toString n ++ " event(s)" ++ ":")
      = ("Parsed " ++ toString n ++ " event(s):") := by
    rw [String.append_assoc]
    congr 1
  rw [h]
  simp [successHeader]

/-- **C1**: a response with empty `errors` and non-empty `results`
(whose events have the spec's event-object shape) makes `do_validate`
print "VALIDATION SUCCESSFUL" and the `Parsed N event(s)` count line
with `N = results.length`, render the results in the selected output
mode (pretty JSON, YAML dump, or the summary loop), and return
normally, so the process exits with code 0. -/
theorem usp_C1 (env : Env) (args : Args) (req : ValidationRequest) (resp : ValidationResponse)
    (hpre : doValidatePre env args = .ok req)
    (hapi : env.api req = .ok resp)
    (herr : resp.errors = [])
    (hres : resp.results ≠ [])
    (hwf : args.output_format ≠ "json" → args.output_format ≠ "yaml" →
            ∀ e ∈ resp.results, wellFormedEvent e = true) :
    ∃ out body,
      do_validate env args = some out
      ∧ out.stdout = successHeader resp.results.length ++ body
      ∧ out.stderr = []
      ∧ out.exitCode = 0
      ∧ "VALIDATION SUCCESSFUL" ∈ out.stdout
      ∧ ("Parsed " ++ toString resp.results.length ++ " event(s)" ++ ":") ∈ out.stdout
      ∧ (args.output_format = "json" → body = env.dumpJson resp.results)
      ∧ (args.output_format = "yaml" → body = env.dumpYaml resp.results)
      ∧ (args.output_format ≠ "json" → args.output_format ≠ "yaml" →
          renderSummaryBlocks 1 resp.results = some body) := by
  have hlen : ¬resp.results.length = 0 := by simpa using hres
  by_cases hj : args.output_format = "json"
  · have hdv : do_validate env args
        = some { stdout := successHeader resp.results.length ++ env.dumpJson resp.results,
                 stderr := [], exit := none } := by
      simp [do_validate, hpre, hapi, renderResponse, herr, hlen, hj]
    exact ⟨_, env.dumpJson resp.results, hdv, rfl, rfl, rfl,
      by simp [successHeader], countLine_mem_successHeader _ _,
      fun _ => rfl, fun hy => absurd (hy.symm.trans hj) (by decide), fun hnj _ => absurd hj hnj⟩
  · by_cases hy : args.output_format = "yaml"
    · have hdv : do_validate env args
          = some { stdout := successHeader resp.results.length ++ env.dumpYaml resp.results,
                   stderr := [], exit := none } := by
        simp [do_validate, hpre, hapi, renderResponse, herr, hlen, hj, hy]
      exact ⟨_, env.dumpYaml resp.results, hdv, rfl, rfl, rfl,
        by simp [successHeader], countLine_mem_successHeader _ _,
        fun hj' => absurd hj' hj, fun _ => rfl, fun _ hny => absurd hy hny⟩
    · obtain ⟨blocks, hblocks⟩ := renderSummaryBlocks_isSome resp.results (hwf hj hy) 1
      have hdv : do_validate env args
          = some { stdout := successHeader resp.results.length ++ blocks,
                   stderr := [], exit := none } := by
        simp [do_validate, hpre, hapi, renderResponse, herr, hlen, hj, hy, hblocks]
      exact ⟨_, blocks, hdv, rfl, rfl, rfl,
        by simp [successHeader], countLine_mem_successHeader _ _,
        fun hj' => absurd hj' hj, fun hy' => absurd hy' hy, fun _ _ => hblocks⟩

/-- Witness for C1 at the spec's scenario
`{errors: [], results: [{'event_type':'test'}]}` in summary mode. -/
theorem usp_C1_witness :
    ∃ out body,
      do_validate (envOf ⟨[], [.obj [("event_type", .str "test")]]⟩)
          { defaultArgs with action := "validate", platform := "cef", input := some "test data" }
        = some out
      ∧ out.stdout = successHeader 1 ++ body
      ∧ out.stderr = []
      ∧ out.exitCode = 0
      ∧ "VALIDATION SUCCESSFUL" ∈ out.stdout
      ∧ ("Parsed " ++ toString 1 ++ " event(s)" ++ ":") ∈ out.stdout := by
  obtain ⟨out, body, h1, h2, h3, h4, h5, h6, -⟩ :=
    usp_C1 (envOf ⟨[], [.obj [("event_type", .str "test")]]⟩)
      { defaultArgs with action := "validate", platform := "cef", input := some "test data" }
      { platform := "cef", hostname := none, mapping := .null, mappings := .null,
        indexing := .null, text_input := some "test data", json_input := none }
      ⟨[], [.obj [("event_type", .str "test")]]⟩
      rfl rfl rfl (List.cons_ne_nil _ _)
      (fun _ _ => by intro e he; simp at he; subst he; rfl)
  exact ⟨out, body, h1, h2, h3, h4, h5, h6⟩

theorem objGet_some_ne_nil (kvs : List (String × Json)) (k : String) (v : Json)
    (h : objGet kvs k = some v) : kvs ≠ [] := by
  intro hk
  subst hk
  simp [objGet] at h

/-- **C4**: in summary mode each event is printed as its 1-based index
line, a hostname line taken from `routing.hostname` (falling back to
`routing.this.hostname`) when truthy, and one `key: value` line for
every key of the `event` sub-object (or of the whole event when no
`event` key exists) except a literal `routing` key; for the scenario
`{event: {a: 1, b: 2}, routing: {hostname: 'h'}}` this emits hostname
`h`, lines for `a` and `b`, and no `routing` line (the second scenario
event exercises the `routing.this.hostname` fallback). -/
theorem usp_C4 :
    (∀ (i : Nat) (ekvs evtKvs : List (String × Json)) (hostLines : List String),
       objGet ekvs "event" = some (.obj evtKvs) →
       hostnameLines ((objGet ekvs "routing").getD (.obj [])) = some hostLines →
       renderSummaryEvent i (.obj ekvs)
         = some (("Event " ++ toString i ++ ":") :: hostLines
             ++ (evtKvs.filter (fun kv => kv.1 != "routing")).map
                 (fun kv => "  " ++ kv.1 ++ ": " ++ pyStr kv.2)
             ++ [""]))
  ∧ (∀ (i : Nat) (ekvs : List (String × Json)) (hostLines : List String),
       objGet ekvs "event" = none →
       hostnameLines ((objGet ekvs "routing").getD (.obj [])) = some hostLines →
       renderSummaryEvent i (.obj ekvs)
         = some (("Event " ++ toString i ++ ":") :: hostLines
             ++ (ekvs.filter (fun kv => kv.1 != "routing")).map
                 (fun kv => "  " ++ kv.1 ++ ": " ++ pyStr kv.2)
             ++ [""]))
  ∧ (∀ (rkvs tkvs : List (String × Json)) (hn : Json),
       (objGet rkvs "this").getD (.obj []) = .obj tkvs →
       objGet rkvs "hostname" = some hn →
       hn.truthy = true →
       hostnameLines (.obj rkvs) = some ["  hostname: " ++ pyStr hn])
  ∧ (∀ (rkvs tkvs : List (String × Json)) (hn : Json),
       objGet rkvs "hostname" = none →
       objGet rkvs "this" = some (.obj tkvs) →
       objGet tkvs "hostname" = some hn →
       hn.truthy = true →
       hostnameLines (.obj rkvs) = some ["  hostname: " ++ pyStr hn])
  ∧ (do_validate
        (envOf ⟨[], [
          .obj [("event", .obj [("a", .num 1), ("b", .num 2)]),
                ("routing", .obj [("hostname", .str "h")])],
          .obj [("event", .obj [("c", .num 3)]),
                ("routing", .obj [("this", .obj [("hostname", .str "h2")])])]]⟩)
        { defaultArgs with action := "validate", platform := "cef", input := some "test data" }
      = some { stdout := ["VALIDATION SUCCESSFUL", "", "Parsed 2 event(s):", "",
                          "Event 1:", "  hostname: h", "  a: 1", "  b: 2", "",
                          "Event 2:", "  hostname: h2", "  c: 3", ""],
               stderr := [], exit := none })
  ∧ (∀ l ∈ ["VALIDATION SUCCESSFUL", "", "Parsed 2 event(s):", "",
            "Event 1:", "  hostname: h", "  a: 1", "  b: 2", "",
            "Event 2:", "  hostname: h2", "  c: 3", ""],
       l.data.take 9 ≠ "  routing".data) := by
  refine ⟨?_, ?_, ?_, ?_, rfl, by decide⟩
  · intro i ekvs evtKvs hostLines hevt hhl
    simp [renderSummaryEvent, hevt, hhl]
  · intro i ekvs hostLines hevt hhl
    simp [renderSummaryEvent, hevt, hhl]
  · intro rkvs tkvs hn hthis hhn htruthy
    have hne : rkvs ≠ [] := objGet_some_ne_nil rkvs "hostname" hn hhn
    have htr : (Json.obj rkvs).truthy = true := by
      simp [Json.truthy, hne]
    simp [hostnameLines, htr, hthis, hhn, htruthy]
  · intro rkvs tkvs hn hhn hthis hthn htruthy
    have hne : rkvs ≠ [] := objGet_some_ne_nil rkvs "this" _ hthis
    have htr : (Json.obj rkvs).truthy = true := by
      simp [Json.truthy, hne]
    simp [hostnameLines, htr, hthis, hhn, hthn, htruthy]

/-- Witness for C4: the general summary shape applied at the scenario
event `{event: {a: 1, b: 2}, routing: {hostname: 'h'}}`. -/
theorem usp_C4_witness :
    renderSummaryEvent 1
        (.obj [("event", .obj [("a", .num 1), ("b", .num 2)]),
               ("routing", .obj [("hostname", .str "h")])])
      = some ["Event 1:", "  hostname: h", "  a: 1", "  b: 2", ""] := by
  rw [usp_C4.1 1
    [("event", .obj [("a", .num 1), ("b", .num 2)]),
     ("routing", .obj [("hostname", .str "h")])]
    [("a", .num 1), ("b", .num 2)] ["  hostname: h"] rfl rfl]
  decide

/-- With no mapping source at all, a platform outside the built-in set
is rejected by the pre-flight check with the mapping-requirement
message, whatever the environment. -/
theorem mappingRequired_error (env : Env) (args : Args)
    (hm : args.mapping = none) (hmf : args.mapping_file = none)
    (hmsf : args.mappings_file = none)
    (hplat : builtin_parser_platforms.contains args.platform = false) :
    do_validate env args
      = some { stdout := [], stderr := [mappingRequiredMsg args.platform], exit := some 1 } := by
  have hmem : args.platform ∉ builtin_parser_platforms := by simpa using hplat
  simp [do_validate, doValidatePre, loadMapping, optTruthy, hm, hmf, hmsf, hmem, Json.isNull]

/-- **C5**: with no mapping, mapping-file or mappings-file supplied,
a platform in the built-in-parser set passes the pre-flight
mapping-requirement check (the pre-flight phase assembles the request),
while a platform outside that set terminates with exit code 1 before
the remote call — for every environment, hence independently of the
API — with a message naming the platform and ending in the list of
built-in-parser platforms. -/
theorem usp_C5 :
    (∀ (env : Env) (args : Args) (s : String),
       args.mapping = none → args.mapping_file = none → args.mappings_file = none →
       args.input_file = none → args.input = some s → s ≠ "" →
       args.json_input = false → args.indexing_file = none →
       builtin_parser_platforms.contains args.platform = true →
       doValidatePre env args
         = .ok { platform := args.platform, hostname := args.hostname, mapping := .null,
                 mappings := .null, indexing := .null,
                 text_input := some s, json_input := none })
  ∧ (∀ (env : Env) (args : Args),
       args.mapping = none → args.mapping_file = none → args.mappings_file = none →
       builtin_parser_platforms.contains args.platform = false →
       do_validate env args
           = some { stdout := [], stderr := [mappingRequiredMsg args.platform], exit := some 1 }
         ∧ (∃ a b, mappingRequiredMsg args.platform = a ++ args.platform ++ b)
         ∧ (∃ a, mappingRequiredMsg args.platform
                  = a ++ String.intercalate ", " builtin_parser_platforms)) := by
  constructor
  · intro env args s hm hmf hmsf hif hi hs hji hidx hplat
    have hmem : args.platform ∈ builtin_parser_platforms := by simpa using hplat
    simp [doValidatePre, loadMapping, resolveMappings, resolveInput, resolveIndexing,
      optTruthy, hm, hmf, hmsf, hif, hi, hs, hji, hidx, hmem, Json.isNull]
  · intro env args hm hmf hmsf hplat
    refine ⟨mappingRequired_error env args hm hmf hmsf hplat, ⟨"Platform \"",
        "\" requires a mapping configuration.\nUse --mapping, --mapping-file, or --mappings-file to provide one.\nPlatforms with built-in parsers (no mapping required): " ++
          String.intercalate ", " builtin_parser_platforms, ?_⟩,
      ⟨"Platform \"" ++ args.platform ++ "\" requires a mapping configuration.\n" ++
        "Use --mapping, --mapping-file, or --mappings-file to provide one.\n" ++
        "Platforms with built-in parsers (no mapping required): ", rfl⟩⟩
    simp [mappingRequiredMsg, String.append_assoc]

/-- Witness for C5: platform `cef` passes the pre-flight check and
platform `text` is rejected with the mapping-requirement message. -/
theorem usp_C5_witness :
    doValidatePre (envOf ⟨[], []⟩)
        { defaultArgs with action := "validate", platform := "cef", input := some "test data" }
      = .ok { platform := "cef", hostname := none, mapping := .null, mappings := .null,
              indexing := .null, text_input := some "test data", json_input := none }
    ∧ do_validate (envOf ⟨[], []⟩)
        { defaultArgs with action := "validate", input := some "test data" }
      = some { stdout := [], stderr := [mappingRequiredMsg "text"], exit := some 1 } :=
  ⟨usp_C5.1 (envOf ⟨[], []⟩)
      { defaultArgs with action := "validate", platform := "cef", input := some "test data" }
      "test data" rfl rfl rfl rfl rfl (by decide) rfl rfl (by decide),
   (usp_C5.2 (envOf ⟨[], []⟩)
      { defaultArgs with action := "validate", input := some "test data" }
      rfl rfl rfl (by decide)).1⟩

/-- Every pair produced by the input resolver has at least one `None`
component: the two input representations are never both populated. -/
theorem resolveInput_shape (env : Env) (args : Args) (t : Option String) (j : Option Json)
    (h : resolveInput env args = .ok (t, j)) : t = none ∨ j = none := by
  unfold resolveInput at h
  repeat' split at h
  all_goals simp_all

/-- A successful pre-flight phase always passed through the input
resolver and the not-both-`None` check. -/
theorem doValidatePre_ok_input (env : Env) (args : Args) (req : ValidationRequest)
    (h : doValidatePre env args = .ok req) :
    resolveInput env args = .ok (req.text_input, req.json_input)
      ∧ (req.text_input.isNone && req.json_input.isNone) = false := by
  unfold doValidatePre at h
  repeat' split at h
  all_goals cases h
  all_goals simp_all
  all_goals
    intro ht
    simp_all [Option.ne_none_iff_isSome]

/-- **C6**: every request that reaches the remote call has exactly one
of `text_input`/`json_input` populated; and when neither an input file
nor a non-empty inline input is supplied (with the mapping pre-flight
satisfied by a built-in-parser platform and no mapping source), the
program terminates with exit code 1 and the message demanding
`--input` or `--input-file`, for every environment, hence before any
remote call. -/
theorem usp_C6 :
    (∀ (env : Env) (args : Args) (req : ValidationRequest),
       doValidatePre env args = .ok req →
       (req.text_input.isSome = true ∧ req.json_input = none)
         ∨ (req.text_input = none ∧ req.json_input.isSome = true))
  ∧ (∀ (env : Env) (args : Args),
       optTruthy args.input_file = false → optTruthy args.input = false →
       args.mapping = none → args.mapping_file = none → args.mappings_file = none →
       builtin_parser_platforms.contains args.platform = true →
       do_validate env args
         = some { stdout := [], stderr := ["Either --input or --input-file is required"],
                  exit := some 1 }) := by
  constructor
  · intro env args req h
    obtain ⟨hres, hguard⟩ := doValidatePre_ok_input env args req h
    have hshape := resolveInput_shape env args req.text_input req.json_input hres
    rcases hshape with ht | hj
    · right
      refine ⟨ht, ?_⟩
      cases hjv : req.json_input with
      | none => rw [ht, hjv] at hguard; simp at hguard
      | some v => simp
    · left
      refine ⟨?_, hj⟩
      cases htv : req.text_input with
      | none => rw [htv, hj] at hguard; simp at hguard
      | some v => simp
  · intro env args hif hi hm hmf hmsf hplat
    have hmem : args.platform ∈ builtin_parser_platforms := by simpa using hplat
    have hif' : (match args.input_file with | none => false | some s => s != "") = false := hif
    have hi' : (match args.input with | none => false | some s => s != "") = false := hi
    simp [do_validate, doValidatePre, loadMapping, resolveMappings, resolveInput,
      optTruthy, hif', hi', hm, hmf, hmsf, hmem, Json.isNull]

/-- Witness for C6: the exactly-one invariant at a concrete assembled
request, and the missing-input termination for `validate -p cef`. -/
theorem usp_C6_witness :
    ((some "test data" : Option String).isSome = true ∧ (none : Option Json) = none)
      ∨ ((some "test data" : Option String) = none ∧ (none : Option Json).isSome = true) :=
  usp_C6.1 (envOf ⟨[], []⟩)
    { defaultArgs with action := "validate", platform := "cef", input := some "test data" }
    { platform := "cef", hostname := none, mapping := .null, mappings := .null,
      indexing := .null, text_input := some "test data", json_input := none }
    rfl

/-- **C7**: a `--mappings-file`, `--json-input` (file or inline) or
`--indexing-file` source whose content parses as JSON but is not a JSON
array terminates the program with exit code 1 and an error message
containing the word "array", for every environment's API, hence before
the remote call. -/
theorem usp_C7 :
    (∀ (env : Env) (args : Args) (p c : String) (j : Json),
       args.mapping = none → args.mapping_file = none → args.mappings_file = some p →
       p ≠ "" → env.readFile p = .ok c → env.parseJson c = .ok j → j.isArr = false →
       do_validate env args
         = some { stdout := [],
                  stderr := ["--mappings-file must contain a JSON array of mapping descriptors"],
                  exit := some 1 })
  ∧ (∀ (env : Env) (args : Args) (p c : String) (j : Json),
       args.mapping = none → args.mapping_file = none → args.mappings_file = none →
       builtin_parser_platforms.contains args.platform = true →
       args.input_file = some p → p ≠ "" → args.json_input = true →
       env.readFile p = .ok c → env.parseJson c = .ok j → j.isArr = false →
       do_validate env args
         = some { stdout := [], stderr := ["JSON input must be an array of objects"],
                  exit := some 1 })
  ∧ (∀ (env : Env) (args : Args) (s : String) (j : Json),
       args.mapping = none → args.mapping_file = none → args.mappings_file = none →
       builtin_parser_platforms.contains args.platform = true →
       args.input_file = none → args.input = some s → s ≠ "" → args.json_input = true →
       env.parseJson s = .ok j → j.isArr = false →
       do_validate env args
         = some { stdout := [], stderr := ["JSON input must be an array of objects"],
                  exit := some 1 })
  ∧ (∀ (env : Env) (args : Args) (s p c : String) (j : Json),
       args.mapping = none → args.mapping_file = none → args.mappings_file = none →
       builtin_parser_platforms.contains args.platform = true →
       args.input_file = none → args.input = some s → s ≠ "" → args.json_input = false →
       args.indexing_file = some p → p ≠ "" →
       env.readFile p = .ok c → env.parseJson c = .ok j → j.isArr = false →
       do_validate env args
         = some { stdout := [],
                  stderr := ["--indexing-file must contain a JSON array of indexing rules"],
                  exit := some 1 })
  ∧ (∃ a b, "--mappings-file must contain a JSON array of mapping descriptors"
        = a ++ "array" ++ b)
  ∧ (∃ a b, "JSON input must be an array of objects" = a ++ "array" ++ b)
  ∧ (∃ a b, "--indexing-file must contain a JSON array of indexing rules"
        = a ++ "array" ++ b) := by
  refine ⟨?_, ?_, ?_, ?_,
    ⟨"--mappings-file must contain a JSON ", " of mapping descriptors", by decide⟩,
    ⟨"JSON input must be an ", " of objects", by decide⟩,
    ⟨"--indexing-file must contain a JSON ", " of indexing rules", by decide⟩⟩
  · intro env args p c j hm hmf hmsf hp hrf hpj hja
    simp [do_validate, doValidatePre, loadMapping, resolveMappings, loadFileContentJson,
      optTruthy, hm, hmf, hmsf, hp, hrf, hpj, hja, Json.isNull]
  · intro env args p c j hm hmf hmsf hplat hif hp hji hrf hpj hja
    have hmem : args.platform ∈ builtin_parser_platforms := by simpa using hplat
    simp [do_validate, doValidatePre, loadMapping, resolveMappings, resolveInput,
      loadFileContentJson, optTruthy, hm, hmf, hmsf, hplat, hmem, hif, hp, hji,
      hrf, hpj, hja, Json.isNull]
  · intro env args s j hm hmf hmsf hplat hif hi hs hji hpj hja
    have hmem : args.platform ∈ builtin_parser_platforms := by simpa using hplat
    simp [do_validate, doValidatePre, loadMapping, resolveMappings, resolveInput,
      optTruthy, hm, hmf, hmsf, hplat, hmem, hif, hi, hs, hji, hpj, hja, Json.isNull]
  · intro env args s p c j hm hmf hmsf hplat hif hi hs hji hidx hp hrf hpj hja
    have hmem : args.platform ∈ builtin_parser_platforms := by simpa using hplat
    simp [do_validate, doValidatePre, loadMapping, resolveMappings, resolveInput,
      resolveIndexing, loadFileContentJson, optTruthy, hm, hmf, hmsf, hplat, hmem,
      hif, hi, hs, hji, hidx, hp, hrf, hpj, hja, Json.isNull]

/-- Witness for C7: a `--mappings-file` containing a JSON object. -/
theorem usp_C7_witness :
    do_validate
        { readFile := fun _ => .ok "\x7b\x7d",
          parseJson := fun _ => .ok (.obj []),
          parseYaml := fun _ => .error "parse error",
          api := fun _ => .ok ⟨[], []⟩,
          dumpJson := fun _ => [], dumpYaml := fun _ => [] }
        { defaultArgs with
          action := "validate",
          mappings_file := some "mappings.json",
          input := some "test data" }
      = some { stdout := [],
               stderr := ["--mappings-file must contain a JSON array of mapping descriptors"],
               exit := some 1 } :=
  usp_C7.1
    { readFile := fun _ => .ok "\x7b\x7d",
      parseJson := fun _ => .ok (.obj []),
      parseYaml := fun _ => .error "parse error",
      api := fun _ => .ok ⟨[], []⟩,
      dumpJson := fun _ => [], dumpYaml := fun _ => [] }
    { defaultArgs with
      action := "validate",
      mappings_file := some "mappings.json",
      input := some "test data" }
    "mappings.json" "\x7b\x7d" (.obj []) rfl rfl rfl (by decide) rfl rfl rfl

/-- **C8 counterexample**: the CLI accepts `--input` and `--input-file`
together — `main` declares no mutually-exclusive group, so the argparse
surface parses both flags into the namespace instead of rejecting the
invocation with an argparse error (exit code 2); the run then proceeds
past argument parsing (here to the exit-1 mapping pre-flight error, not
an exit-2 parse error). -/
theorem usp_C8_cex :
    parseTokens ["validate", "--input", "x", "--input-file", "f"] defaultArgs false
      = .ok { defaultArgs with
              action := "validate", input := some "x", input_file := some "f" }
    ∧ usp_main (envOf ⟨[], []⟩) ["validate", "--input", "x", "--input-file", "f"]
      = some { stdout := [], stderr := [mappingRequiredMsg "text"], exit := some 1 } :=
  ⟨rfl, rfl⟩

/-- **C8 amended**: in both the mapping resolver and the input
resolver, when the file-path argument is (truthily) present the result
is independent of the inline argument — the file path takes precedence
and the inline value is ignored.  The two input flags are NOT enforced
mutually exclusive by the CLI: supplying both is accepted by argument
parsing, and the resolver's file-first check disambiguates. -/
theorem usp_C8_amended :
    (∀ (env : Env) (args : Args), optTruthy args.mapping_file = true →
        loadMapping env args = loadMapping env { args with mapping := none })
  ∧ (∀ (env : Env) (args : Args), optTruthy args.input_file = true →
        resolveInput env args = resolveInput env { args with input := none })
  ∧ parseTokens ["validate", "--input", "x", "--input-file", "f"] defaultArgs false
      = .ok { defaultArgs with
              action := "validate", input := some "x", input_file := some "f" } := by
  refine ⟨?_, ?_, rfl⟩
  · intro env args h
    simp [loadMapping, h]
  · intro env args h
    simp [resolveInput, h]

/-- Witness for the amended C8 at arguments carrying both a file path
and an inline value for the mapping and for the input. -/
theorem usp_C8_witness :
    loadMapping (envOf ⟨[], []⟩)
        { defaultArgs with
          mapping_file := some "m.yaml", mapping := some "\x7b\x7d",
          input_file := some "in.txt", input := some "inline" }
      = loadMapping (envOf ⟨[], []⟩)
        { defaultArgs with
          mapping_file := some "m.yaml", mapping := none,
          input_file := some "in.txt", input := some "inline" }
    ∧ resolveInput (envOf ⟨[], []⟩)
        { defaultArgs with
          mapping_file := some "m.yaml", mapping := some "\x7b\x7d",
          input_file := some "in.txt", input := some "inline" }
      = resolveInput (envOf ⟨[], []⟩)
        { defaultArgs with
          mapping_file := some "m.yaml", mapping := some "\x7b\x7d",
          input_file := some "in.txt", input := none } :=
  ⟨usp_C8_amended.1 (envOf ⟨[], []⟩)
      { defaultArgs with
        mapping_file := some "m.yaml", mapping := some "\x7b\x7d",
        input_file := some "in.txt", input := some "inline" } rfl,
   usp_C8_amended.2.1 (envOf ⟨[], []⟩)
      { defaultArgs with
        mapping_file := some "m.yaml", mapping := some "\x7b\x7d",
        input_file := some "in.txt", input := some "inline" } rfl⟩

/-- **C9 counterexample**: the mapping-requirement error path writes a
single message to stderr that is NOT a single line — it contains two
embedded newline characters, so stderr carries three lines for this
error. -/
theorem usp_C9_cex :
    do_validate (envOf ⟨[], []⟩)
        { defaultArgs with action := "validate", input := some "x" }
      = some { stdout := [], stderr := [mappingRequiredMsg "text"], exit := some 1 }
    ∧ ((mappingRequiredMsg "text").data.filter (fun c => c = Char.ofNat 10)).length = 2 := by
  constructor
  · rfl
  · decide

/-- **C9 amended**: every error detected before or during the remote
call (file, parse, shape, missing-field and API errors) writes exactly
one self-contained error message to stderr — single-line except for the
three-line mapping-requirement message — with nothing on stdout, and
terminates immediately with exit code 1; the response renderer never
writes to stderr, so on every invocation at least one of the two
streams is empty. -/
theorem usp_C9_amended :
    (∀ (env : Env) (args : Args) (msg : String),
       doValidatePre env args = .error msg →
       do_validate env args = some { stdout := [], stderr := [msg], exit := some 1 })
  ∧ (∀ (env : Env) (args : Args) (req : ValidationRequest) (e : String),
       doValidatePre env args = .ok req → env.api req = .error e →
       do_validate env args
         = some { stdout := [], stderr := ["API error: " ++ e], exit := some 1 })
  ∧ (∀ (env : Env) (fmt : String) (resp : ValidationResponse) (out : Output),
       renderResponse env fmt resp = some out → out.stderr = [])
  ∧ (∀ (env : Env) (args : Args) (out : Output),
       do_validate env args = some out → out.stdout = [] ∨ out.stderr = []) := by
  have hrender : ∀ (env : Env) (fmt : String) (resp : ValidationResponse) (out : Output),
      renderResponse env fmt resp = some out → out.stderr = [] := by
    intro env fmt resp out h
    unfold renderResponse at h
    repeat' split at h
    all_goals cases h
    all_goals rfl
  refine ⟨?_, ?_, hrender, ?_⟩
  · intro env args msg h
    simp [do_validate, h]
  · intro env args req e hpre hapi
    simp [do_validate, hpre, hapi]
  · intro env args out h
    unfold do_validate at h
    split at h
    · cases h; left; rfl
    · split at h
      · cases h; left; rfl
      · right; exact hrender _ _ _ _ h

/-- Witness for the amended C9: the pre-flight error path at a concrete
invocation missing its input. -/
theorem usp_C9_witness :
    do_validate (envOf ⟨[], []⟩)
        { defaultArgs with action := "validate", platform := "cef" }
      = some { stdout := [], stderr := ["Either --input or --input-file is required"],
               exit := some 1 } :=
  usp_C9_amended.1 (envOf ⟨[], []⟩)
    { defaultArgs with action := "validate", platform := "cef" }
    "Either --input or --input-file is required" rfl

/-- **C10**: of the five CLI platform choices exactly `cef`, `gcp` and
`aws` are in the built-in-parser set; `json` (like `text`) is not, so a
`--platform json` invocation with no mapping source terminates
pre-flight with the mapping-requirement message; and the built-in set
listed to the user contains four identifiers (`wel`, `1password`,
`duo`, `slack`) that the `--platform` flag rejects as an argparse error
(exit code 2). -/
theorem usp_C10 :
    platform_choices.filter (fun p => builtin_parser_platforms.contains p)
        = ["cef", "gcp", "aws"]
  ∧ builtin_parser_platforms.contains "json" = false
  ∧ builtin_parser_platforms.contains "text" = false
  ∧ (∀ (env : Env) (args : Args),
       args.platform = "json" → args.mapping = none → args.mapping_file = none →
       args.mappings_file = none →
       do_validate env args
         = some { stdout := [], stderr := [mappingRequiredMsg "json"], exit := some 1 })
  ∧ builtin_parser_platforms.filter (fun p => !platform_choices.contains p)
      = ["wel", "1password", "duo", "slack"]
  ∧ parseTokens ["validate", "--platform", "wel", "--input", "x"] defaultArgs false
      = .error 2
  ∧ parseTokens ["validate", "--platform", "1password", "--input", "x"] defaultArgs false
      = .error 2
  ∧ parseTokens ["validate", "--platform", "duo", "--input", "x"] defaultArgs false
      = .error 2
  ∧ parseTokens ["validate", "--platform", "slack", "--input", "x"] defaultArgs false
      = .error 2 := by
  refine ⟨by decide, by decide, by decide, ?_, by decide, rfl, rfl, rfl, rfl⟩
  intro env args hp hm hmf hmsf
  have h := mappingRequired_error env args hm hmf hmsf (by rw [hp]; decide)
  rwa [hp] at h

/-- Witness for C10: the `--platform json` pre-flight termination at a
concrete invocation. -/
theorem usp_C10_witness :
    do_validate (envOf ⟨[], []⟩)
        { defaultArgs with action := "validate", platform := "json", input := some "x" }
      = some { stdout := [], stderr := [mappingRequiredMsg "json"], exit := some 1 } :=
  usp_C10.2.2.2.1 (envOf ⟨[], []⟩)
    { defaultArgs with action := "validate", platform := "json", input := some "x" }
    rfl rfl rfl rfl
